import Mathlib

/-!
Verification of the crossplane-go REST facade (src/main.go) against its
natural-language specification.  The Go handlers are shallowly embedded as
pure Lean functions: external effects (file system, kubectl / openstack
process invocations, the process id) are passed in as explicit parameters,
and each handler returns its HTTP outcome together with a trace of the
side effects it performed (file operations, executed commands, manifests
handed to the apply step).
-/

namespace CrossplaneGo

/-- Loosely-typed structured value: the shape of JSON/YAML documents as the
Go code sees them after `json.Unmarshal` / `yaml.Unmarshal` into
`map[string]interface{}` (string keys, arbitrary nested values). -/
inductive Val where
  | str (s : String)
  | int (n : Int)
  | bool (b : Bool)
  | list (xs : List Val)
  | map (fields : List (String × Val))
deriving Repr

/-- Association-list lookup, modelling Go map indexing `m[k]`. -/
def lookupField (fields : List (String × Val)) (k : String) : Option Val :=
  match fields with
  | [] => none
  | (k1, v) :: rest => if k1 = k then some v else lookupField rest k

/-- Association-list update, modelling Go map assignment `m[k] = v`
(replace the binding when the key is present, insert it otherwise). -/
def setField (fields : List (String × Val)) (k : String) (v : Val) :
    List (String × Val) :=
  match fields with
  | [] => [(k, v)]
  | (k1, v1) :: rest =>
    if k1 = k then (k1, v) :: rest else (k1, v1) :: setField rest k v

/-- Outcome of a handler: either `http.Error` with a status code, or the
200 success body written via `json.NewEncoder(w).Encode`. -/
inductive HResult where
  | httpError (status : Nat) (msg : String)
  | success (msg : String)
deriving Repr, DecidableEq

/-- The HTTP status code of a handler outcome. -/
def HResult.statusCode : HResult → Nat
  | HResult.httpError s _ => s
  | HResult.success _ => 200

/-- A file-system side effect performed by a handler. -/
inductive FileOp where
  | write (path : String)
  | remove (path : String)
deriving Repr, DecidableEq

/-- Outcomes of the external calls a handler may make: whether the
manifest file write succeeds and whether the `kubectl apply` invocation
exits zero. -/
structure ApplyEnv where
  writeOk : Bool
  kubectlOk : Bool
deriving Repr, DecidableEq

/-- `applyYAML` from src/main.go: marshal the manifest (total on the
documents this program builds), write it to `filename`, run
`kubectl apply -f filename`.  Returns the error outcome together with the
file operations performed. -/
def applyYAML (env : ApplyEnv) (filename : String) :
    Except String Unit × List FileOp :=
  if env.writeOk then
    if env.kubectlOk then
      (Except.ok (), [FileOp.write filename])
    else
      (Except.error "failed to execute kubectl apply", [FileOp.write filename])
  else
    (Except.error "failed to write YAML to file", [])

/-- `os.TempDir()` on the target host. -/
def tempDir : String := "/tmp"

/-! ## registerTeam (POST /teams) -/

/-- Decoded body of a team-registration request. -/
structure RegisterTeamReq where
  name : String
deriving Repr

/-- The namespace manifest built by `registerTeam`. -/
def namespaceManifest (name : String) : Val :=
  Val.map
    [("apiVersion", Val.str "v1"),
     ("kind", Val.str "Namespace"),
     ("metadata", Val.map [("name", Val.str name)])]

/-- Transient file path used by `registerTeam`:
`filepath.Join(os.TempDir(), fmt.Sprintf("namespace-%s.yaml", name))`. -/
def namespacePath (name : String) : String :=
  tempDir ++ "/namespace-" ++ name ++ ".yaml"

/-- `registerTeam` from src/main.go.  Returns the HTTP outcome, the
manifest handed to `applyYAML` (none when validation fails), and the trace
of file operations; the deferred `os.Remove(filename)` runs on every path
after the validation, so the trace ends with the removal. -/
def registerTeam (env : ApplyEnv) (req : RegisterTeamReq) :
    HResult × Option Val × List FileOp :=
  if req.name = "" then
    (HResult.httpError 400 "Missing name in request", none, [])
  else
    let filename := namespacePath req.name
    let r := applyYAML env filename
    ((match r.1 with
      | Except.error e => HResult.httpError 500 ("Failed to create namespace: " ++ e)
      | Except.ok _ =>
        HResult.success ("Namespace " ++ req.name ++ " created successfully.")),
     some (namespaceManifest req.name), r.2 ++ [FileOp.remove filename])

/-! ## createVM (POST /teams/:team_id/vm) -/

/-- Decoded body of a VM-creation request.  An omitted `securityGroups`
field decodes to a nil slice in Go, i.e. the empty list here. -/
structure CreateVMReq where
  name : String
  imageId : String
  flavorId : String
  networkId : String
  securityGroups : List String
deriving Repr

/-- The `InstanceV2` manifest literal built by `createVM` (after the
security-group default has been applied to `d`). -/
def instanceManifest (teamID : String) (d : CreateVMReq) : Val :=
  Val.map
    [("apiVersion", Val.str "compute.openstack.crossplane.io/v1alpha1"),
     ("kind", Val.str "InstanceV2"),
     ("metadata", Val.map
        [("name", Val.str d.name), ("namespace", Val.str teamID)]),
     ("spec", Val.map
        [("forProvider", Val.map
            [("configDrive", Val.bool true),
             ("flavorId", Val.str d.flavorId),
             ("imageId", Val.str d.imageId),
             ("name", Val.str d.name),
             ("network", Val.list [Val.map [("uuid", Val.str d.networkId)]]),
             ("securityGroups", Val.list (d.securityGroups.map Val.str))]),
         ("providerConfigRef", Val.map
            [("name", Val.str "provider-openstack-config")])])]

/-- Durable manifest path used by both `createVM` and `resizeVM`:
`filepath.Join("/home/ubuntu/crossplane-api", fmt.Sprintf("%s-%s.yaml", team, vm))`. -/
def vmManifestPath (team vm : String) : String :=
  "/home/ubuntu/crossplane-api/" ++ team ++ "-" ++ vm ++ ".yaml"

/-- `createVM` from src/main.go.  Returns the HTTP outcome, the manifest
handed to `applyYAML` (none when validation fails), and the file-operation
trace (no deferred removal: the VM manifest file is durable). -/
def createVM (env : ApplyEnv) (teamID : String) (d : CreateVMReq) :
    HResult × Option Val × List FileOp :=
  if d.name = "" ∨ d.imageId = "" ∨ d.flavorId = "" ∨ d.networkId = "" then
    (HResult.httpError 400 "Missing required fields", none, [])
  else
    let sg := if d.securityGroups = [] then ["default"] else d.securityGroups
    let m := instanceManifest teamID { d with securityGroups := sg }
    let r := applyYAML env (vmManifestPath teamID d.name)
    ((match r.1 with
      | Except.error e => HResult.httpError 500 ("Failed to provision VM: " ++ e)
      | Except.ok _ =>
        HResult.success ("VM " ++ d.name ++ " provisioned successfully in namespace " ++ teamID ++ ".")),
     some m, r.2)

/-- Extracts `spec.forProvider.securityGroups` from a manifest document. -/
def manifestSecurityGroups (m : Val) : Option Val :=
  match m with
  | Val.map fields =>
    match lookupField fields "spec" with
    | some (Val.map specFields) =>
      match lookupField specFields "forProvider" with
      | some (Val.map fpFields) => lookupField fpFields "securityGroups"
      | _ => none
    | _ => none
  | _ => none

/-! ## resizeVM (PUT /teams/:team_name/vm/:vm_name/resize) -/

/-- Decoded body of a resize request. -/
structure ResizeReq where
  flavorId : String
deriving Repr

/-- State of the stored applied-manifest file as `resizeVM` discovers it:
missing (`os.Stat` reports not-exist), unreadable (`ioutil.ReadFile`
fails), unparsable (`yaml.Unmarshal` fails), or parsed into a top-level
mapping. -/
inductive StoredManifest where
  | absent
  | unreadable
  | unparsable
  | parsed (fields : List (String × Val))
deriving Repr

/-- The in-place flavor mutation of `resizeVM` (src/main.go lines
194-198): if `doc["spec"]` is a mapping and its `"forProvider"` entry is a
mapping, set `forProvider["flavorId"]`; otherwise the document is left
untouched (the two `ok` guards have no else branch). -/
def resizeMutate (fields : List (String × Val)) (flavorId : String) :
    List (String × Val) :=
  match lookupField fields "spec" with
  | some (Val.map specFields) =>
    match lookupField specFields "forProvider" with
    | some (Val.map fpFields) =>
      setField fields "spec" (Val.map
        (setField specFields "forProvider" (Val.map
          (setField fpFields "flavorId" (Val.str flavorId)))))
    | _ => fields
  | _ => fields

/-- Whether a stored manifest has the nesting `resizeVM` expects:
a `spec` mapping containing a `forProvider` mapping. -/
def hasResizeNesting (fields : List (String × Val)) : Bool :=
  match lookupField fields "spec" with
  | some (Val.map specFields) =>
    match lookupField specFields "forProvider" with
    | some (Val.map _) => true
    | _ => false
  | _ => false

/-- `resizeVM` from src/main.go.  Returns the HTTP outcome, whether the
manifest file was read, and the document handed to `applyYAML` (none when
the handler bailed out before the apply). -/
def resizeVM (env : ApplyEnv) (teamName vmName : String) (req : ResizeReq)
    (stored : StoredManifest) :
    HResult × Bool × Option (List (String × Val)) :=
  if req.flavorId = "" then
    (HResult.httpError 400 "Missing flavorId in request", false, none)
  else
    match stored with
    | StoredManifest.absent =>
      (HResult.httpError 404 (vmManifestPath teamName vmName ++ " not found"),
       false, none)
    | StoredManifest.unreadable =>
      (HResult.httpError 500 "Failed to read VM YAML", true, none)
    | StoredManifest.unparsable =>
      (HResult.httpError 500 "Failed to unmarshal VM YAML", true, none)
    | StoredManifest.parsed fields =>
      let mutated := resizeMutate fields req.flavorId
      let r := applyYAML env (vmManifestPath teamName vmName)
      ((match r.1 with
        | Except.error e => HResult.httpError 500 ("Failed to update VM flavor: " ++ e)
        | Except.ok _ =>
          HResult.success ("Flavor for VM " ++ vmName ++ " updated successfully.")),
       true, some mutated)

/-! ## scaleVM (PUT /teams/:team_id/vm/:resource_id/scale) -/

/-- Decoded body of a scale request.  The Go struct uses `*int` precisely
to distinguish a missing `replicas` field (`none`) from zero (`some 0`). -/
structure ScaleReq where
  replicas : Option Int
deriving Repr

/-- The argv of the `kubectl scale` invocation built by `scaleVM`. -/
def scaleCmdArgs (teamID resourceID : String) (n : Int) : List String :=
  ["kubectl", "scale", "deployment/" ++ resourceID,
   "--replicas=" ++ toString n, "-n", teamID]

/-- `scaleVM` from src/main.go.  Returns the HTTP outcome, the external
commands executed (argv lists), and the file-operation trace; the Go
handler performs no file operations and builds no manifest, so the trace
is empty by construction, mirroring the source. -/
def scaleVM (teamID resourceID : String) (req : ScaleReq) (runOk : Bool) :
    HResult × List (List String) × List FileOp :=
  match req.replicas with
  | none => (HResult.httpError 400 "Missing replicas in request", [], [])
  | some n =>
    if runOk then
      (HResult.success ("Scaled VM " ++ resourceID ++ " to " ++ toString n ++ " replicas."),
       [scaleCmdArgs teamID resourceID n], [])
    else
      (HResult.httpError 500 "Failed to scale VM",
       [scaleCmdArgs teamID resourceID n], [])

/-! ## attachDisk (POST /teams/:team_name/vm/:vm_name/attach-disk) -/

/-- Decoded body of a disk-attachment request. -/
structure AttachDiskReq where
  volumeId : String
  instanceId : String
deriving Repr

/-- The `VolumeAttachmentV2` manifest built by `attachDisk`. -/
def volumeAttachmentManifest (teamName attachmentName : String)
    (d : AttachDiskReq) : Val :=
  Val.map
    [("apiVersion", Val.str "compute.openstack.crossplane.io/v1alpha1"),
     ("kind", Val.str "VolumeAttachmentV2"),
     ("metadata", Val.map
        [("name", Val.str attachmentName), ("namespace", Val.str teamName)]),
     ("spec", Val.map
        [("instanceId", Val.str d.instanceId),
         ("volumeId", Val.str d.volumeId),
         ("providerConfigRef", Val.map
            [("name", Val.str "provider-openstack-config")]),
         ("deletionPolicy", Val.str "Delete")])]

/-- `attachDisk` from src/main.go.  `pidSuffix` abstracts the
process-dependent name suffix `fmt.Sprintf("%x", os.Getpid())[:8]`.
Returns the HTTP outcome, the manifest handed to `applyYAML` (none when
validation fails), and the file-operation trace; the deferred
`os.Remove(yamlPath)` runs on every path after validation. -/
def attachDisk (env : ApplyEnv) (teamName vmName pidSuffix : String)
    (req : AttachDiskReq) : HResult × Option Val × List FileOp :=
  if req.volumeId = "" ∨ req.instanceId = "" then
    (HResult.httpError 400 "Missing volumeId or instanceId", none, [])
  else
    let attachmentName := vmName ++ "-attach-" ++ pidSuffix
    let yamlPath := tempDir ++ "/" ++ attachmentName ++ ".yaml"
    let r := applyYAML env yamlPath
    ((match r.1 with
      | Except.error e => HResult.httpError 500 ("Failed to attach disk: " ++ e)
      | Except.ok _ =>
        HResult.success ("Disk attachment request sent: " ++ attachmentName)),
     some (volumeAttachmentManifest teamName attachmentName req),
     r.2 ++ [FileOp.remove yamlPath])

/-! ## createBlockVolume (POST /teams/:team_name/block) -/

/-- Decoded body of a block-volume request.  `size` is a plain Go `int`,
so an absent JSON field decodes to `0` and is indistinguishable from an
explicit zero. -/
structure BlockVolReq where
  name : String
  size : Int
  description : String
deriving Repr

/-- The `VolumeV3` manifest built by `createBlockVolume`. -/
def volumeManifest (teamName : String) (d : BlockVolReq) : Val :=
  Val.map
    [("apiVersion", Val.str "blockstorage.openstack.crossplane.io/v1alpha1"),
     ("kind", Val.str "VolumeV3"),
     ("metadata", Val.map
        [("name", Val.str d.name), ("namespace", Val.str teamName)]),
     ("spec", Val.map
        [("forProvider", Val.map
            [("name", Val.str d.name),
             ("size", Val.int d.size),
             ("description", Val.str d.description)]),
         ("providerConfigRef", Val.map
            [("name", Val.str "provider-openstack-config")])])]

/-- Transient file path of `createBlockVolume`. -/
def blockVolumePath (name : String) : String :=
  tempDir ++ "/" ++ name ++ "-block.yaml"

/-- `createBlockVolume` from src/main.go.  It inlines the marshal / write
/ `kubectl apply` sequence instead of calling `applyYAML`, with the
deferred `os.Remove(tmpFile)` registered right after the path is built,
so the removal runs on the write-failure, apply-failure and success
paths alike.  Returns the HTTP outcome, the executed commands, and the
file-operation trace. -/
def createBlockVolume (env : ApplyEnv) (teamName : String) (d : BlockVolReq) :
    HResult × List (List String) × List FileOp :=
  if d.name = "" ∨ d.size = 0 then
    (HResult.httpError 400 "Missing required fields (name or size)", [], [])
  else
    let tmpFile := blockVolumePath d.name
    if env.writeOk then
      if env.kubectlOk then
        (HResult.success ("Block volume " ++ d.name ++ " created successfully in namespace " ++ teamName ++ "."),
         [["kubectl", "apply", "-f", tmpFile]],
         [FileOp.write tmpFile, FileOp.remove tmpFile])
      else
        (HResult.httpError 500 "Failed to apply block volume manifest",
         [["kubectl", "apply", "-f", tmpFile]],
         [FileOp.write tmpFile, FileOp.remove tmpFile])
    else
      (HResult.httpError 500 "Failed to write volume manifest to file",
       [], [FileOp.remove tmpFile])

/-! ## handleVMAction (PUT /teams/:team_name/vm/:vm_name/:action) -/

/-- Outcome of the live-status query `openstack server show <vm> -f json`:
the command failed to run, its output was not a JSON object, or it parsed
into a JSON object with the given fields. -/
inductive StatusFetch where
  | fetchFail
  | parseFail
  | statusOk (statusData : List (String × Val))
deriving Repr

/-- Path of the sourced admin script. -/
def adminScript : String := "/home/ubuntu/admin.sh"

/-- The shell command `handleVMAction` builds for a supported action
(`none` for an unsupported action string). -/
def actionCommand (teamName vmName action : String) : Option String :=
  if action = "start" then
    some ("source " ++ adminScript ++ " && openstack server start " ++ vmName)
  else if action = "stop" then
    some ("source " ++ adminScript ++ " && openstack server stop " ++ vmName)
  else if action = "delete" then
    some ("source " ++ adminScript ++ " && kubectl delete instancev2 " ++ vmName ++ " --namespace " ++ teamName)
  else
    none

/-- The tail of `handleVMAction` after the busy check passed: select the
command for the action and run it, recording it as executed whether or
not it exits zero. -/
def runVMAction (teamName vmName action : String) (runOk : Bool) :
    HResult × List String :=
  match actionCommand teamName vmName action with
  | none => (HResult.httpError 400 ("Unsupported action " ++ action ++ "."), [])
  | some cmd =>
    if runOk then
      (HResult.success ("Action " ++ action ++ " executed on VM " ++ vmName ++ "."), [cmd])
    else
      (HResult.httpError 500 ("Failed to execute action " ++ action ++ " on VM " ++ vmName), [cmd])

/-- `handleVMAction` from src/main.go: fetch the live status, fail with
500 when the query fails or its output does not parse, return 409 when
`OS-EXT-STS:task_state` is a non-empty string (the Go two-value type
assertion makes a missing or non-string field count as not busy), then
dispatch the action command.  Returns the HTTP outcome and the list of
action commands executed. -/
def handleVMAction (teamName vmName action : String) (fetch : StatusFetch)
    (runOk : Bool) : HResult × List String :=
  match fetch with
  | StatusFetch.fetchFail =>
    (HResult.httpError 500 "Failed to fetch VM status", [])
  | StatusFetch.parseFail =>
    (HResult.httpError 500 "Failed to parse VM status", [])
  | StatusFetch.statusOk statusData =>
    match lookupField statusData "OS-EXT-STS:task_state" with
    | some (Val.str taskState) =>
      if taskState = "" then
        runVMAction teamName vmName action runOk
      else
        (HResult.httpError 409
          ("VM is currently busy (task_state: " ++ taskState ++ "). Try again later."), [])
    | _ => runVMAction teamName vmName action runOk

/-- Whether `field` occurs as a substring of the error message `msg`:
some suffix of `msg` starts with `field`. -/
def msgMentions (msg field : String) : Bool :=
  msg.data.tails.any fun t => field.data.isPrefixOf t

/-! ## Association-list lemmas for the resize mutation -/

/-- Reading back a key just written returns the written value. -/
theorem lookupField_setField_self (fields : List (String × Val)) (k : String)
    (v : Val) : lookupField (setField fields k v) k = some v := by
  induction fields with
  | nil => simp [setField, lookupField]
  | cons p rest ih =>
    obtain ⟨k1, v1⟩ := p
    by_cases h : k1 = k <;> simp [setField, lookupField, h, ih]

/-- Writing the same key twice keeps only the second write. -/
theorem setField_setField_self (fields : List (String × Val)) (k : String)
    (v w : Val) : setField (setField fields k v) k w = setField fields k w := by
  induction fields with
  | nil => simp [setField]
  | cons p rest ih =>
    obtain ⟨k1, v1⟩ := p
    by_cases h : k1 = k <;> simp [setField, h, ih]

/-- When the expected `spec.forProvider` nesting is absent, the resize
mutation leaves the document untouched (the Go type-assertion guards have
no else branch). -/
theorem resizeMutate_no_nesting (fields : List (String × Val)) (f : String)
    (h : hasResizeNesting fields = false) : resizeMutate fields f = fields := by
  rcases hs : lookupField fields "spec" with _ | v
  · simp [resizeMutate, hs]
  · rcases v with s | n | b | xs | specFields
    · simp [resizeMutate, hs]
    · simp [resizeMutate, hs]
    · simp [resizeMutate, hs]
    · simp [resizeMutate, hs]
    · rcases hf : lookupField specFields "forProvider" with _ | w
      · simp [resizeMutate, hs, hf]
      · rcases w with s | n | b | xs | fpFields
        · simp [resizeMutate, hs, hf]
        · simp [resizeMutate, hs, hf]
        · simp [resizeMutate, hs, hf]
        · simp [resizeMutate, hs, hf]
        · simp [hasResizeNesting, hs, hf] at h

/-! ## Claim theorems -/

/-- C1: whenever the live-status query of the VM action route succeeds
and reports a non-empty `OS-EXT-STS:task_state` string, `handleVMAction`
returns 409 and executes no action command, for every action and every
outcome the action command would have had. -/
theorem vmAction_busy_conflict (teamName vmName action : String)
    (statusData : List (String × Val)) (runOk : Bool) (s : String)
    (hlook : lookupField statusData "OS-EXT-STS:task_state" = some (Val.str s))
    (hne : s ≠ "") :
    (handleVMAction teamName vmName action (StatusFetch.statusOk statusData)
        runOk).1.statusCode = 409 ∧
    (handleVMAction teamName vmName action (StatusFetch.statusOk statusData)
        runOk).2 = [] := by
  simp [handleVMAction, hlook, hne, HResult.statusCode]

/-- Witness for C1: task state `powering-on` on a start request yields
409 with no command executed. -/
theorem vmAction_busy_conflict_witness :
    (handleVMAction "teamA" "vm1" "start"
        (StatusFetch.statusOk [("OS-EXT-STS:task_state", Val.str "powering-on")])
        true).1.statusCode = 409 ∧
    (handleVMAction "teamA" "vm1" "start"
        (StatusFetch.statusOk [("OS-EXT-STS:task_state", Val.str "powering-on")])
        true).2 = [] :=
  vmAction_busy_conflict "teamA" "vm1" "start"
    [("OS-EXT-STS:task_state", Val.str "powering-on")] true "powering-on"
    rfl (by decide)

/-- C6: when the live-status query cannot be run or its output does not
parse as a JSON object, `handleVMAction` fails with 500 and executes no
action command; the failure is never treated as not-busy. -/
theorem vmAction_upstream_failure (teamName vmName action : String)
    (runOk : Bool) :
    ((handleVMAction teamName vmName action StatusFetch.fetchFail
        runOk).1.statusCode = 500 ∧
     (handleVMAction teamName vmName action StatusFetch.fetchFail runOk).2 = []) ∧
    ((handleVMAction teamName vmName action StatusFetch.parseFail
        runOk).1.statusCode = 500 ∧
     (handleVMAction teamName vmName action StatusFetch.parseFail runOk).2 = []) := by
  simp [handleVMAction, HResult.statusCode]

/-- C3: a resize request addressing a reference whose applied-manifest
file does not exist never reads the file and never hands a document to
the apply step, and (when the request body carries a flavor id, so that
the handler reaches the existence check) the outcome is 404. -/
theorem resize_absent_not_found (env : ApplyEnv) (teamName vmName : String)
    (req : ResizeReq) :
    (resizeVM env teamName vmName req StoredManifest.absent).2.1 = false ∧
    (resizeVM env teamName vmName req StoredManifest.absent).2.2 = none ∧
    (req.flavorId ≠ "" →
      (resizeVM env teamName vmName req StoredManifest.absent).1.statusCode = 404) := by
  obtain ⟨f⟩ := req
  by_cases h : f = "" <;> simp [resizeVM, h, HResult.statusCode]

/-- Witness for C3: resize of `vm1` with flavor `f2` and no stored
manifest yields 404. -/
theorem resize_absent_not_found_witness :
    (resizeVM ⟨true, true⟩ "teamA" "vm1" { flavorId := "f2" }
        StoredManifest.absent).1.statusCode = 404 :=
  (resize_absent_not_found ⟨true, true⟩ "teamA" "vm1"
    { flavorId := "f2" }).2.2 (by decide)

/-- C4: for every valid VM-creation request, the manifest handed to the
apply step has `spec.forProvider.securityGroups` equal to the supplied
list when it is non-empty, and to `["default"]` when it is omitted or
empty (both decode to the empty list). -/
theorem createVM_securityGroups (env : ApplyEnv) (teamID : String)
    (d : CreateVMReq) (h1 : d.name ≠ "") (h2 : d.imageId ≠ "")
    (h3 : d.flavorId ≠ "") (h4 : d.networkId ≠ "") :
    ∃ m, (createVM env teamID d).2.1 = some m ∧
      manifestSecurityGroups m = some (Val.list
        ((if d.securityGroups = [] then ["default"] else
          d.securityGroups).map Val.str)) := by
  refine ⟨instanceManifest teamID
    { d with securityGroups :=
        if d.securityGroups = [] then ["default"] else d.securityGroups },
    ?_, ?_⟩
  · simp [createVM, h1, h2, h3, h4]
  · simp [instanceManifest, manifestSecurityGroups, lookupField]

/-- Witness for C4: a creation request with no security groups builds a
manifest whose security groups default. -/
theorem createVM_securityGroups_witness :
    ∃ m, (createVM ⟨true, true⟩ "teamA"
        { name := "vm1", imageId := "img1", flavorId := "f1",
          networkId := "net1", securityGroups := [] }).2.1 = some m ∧
      manifestSecurityGroups m = some (Val.list
        ((if ([] : List String) = [] then ["default"] else []).map Val.str)) :=
  createVM_securityGroups ⟨true, true⟩ "teamA"
    { name := "vm1", imageId := "img1", flavorId := "f1",
      networkId := "net1", securityGroups := [] }
    (by decide) (by decide) (by decide) (by decide)

/-- C5 counterexample: on a request missing `imageId`, `createVM` does
return 400, but with the fixed message `Missing required fields`, which
does not name the missing field — refuting the part of the claim that
says the error names the missing field(s). -/
theorem createVM_validation_message_generic :
    (createVM ⟨true, true⟩ "teamA"
        { name := "vm1", imageId := "", flavorId := "f1",
          networkId := "net1", securityGroups := [] }).1 =
      HResult.httpError 400 "Missing required fields" ∧
    msgMentions "Missing required fields" "imageId" = false := by
  exact ⟨rfl, by decide⟩

/-- C5 amended: a creation request with any required field absent or
empty fails with a 400 error carrying the generic message
`Missing required fields`, and no manifest is produced, written or
applied. -/
theorem createVM_missing_field_rejected (env : ApplyEnv) (teamID : String)
    (d : CreateVMReq)
    (h : d.name = "" ∨ d.imageId = "" ∨ d.flavorId = "" ∨ d.networkId = "") :
    createVM env teamID d =
      (HResult.httpError 400 "Missing required fields", none, []) := by
  unfold createVM
  rw [if_pos h]

/-- Witness for amended C5: a request with empty `imageId` is rejected
with the generic 400 and an empty effect trace. -/
theorem createVM_missing_field_rejected_witness :
    createVM ⟨true, true⟩ "teamA"
        { name := "vm1", imageId := "", flavorId := "f1",
          networkId := "net1", securityGroups := [] } =
      (HResult.httpError 400 "Missing required fields", none, []) :=
  createVM_missing_field_rejected ⟨true, true⟩ "teamA"
    { name := "vm1", imageId := "", flavorId := "f1",
      networkId := "net1", securityGroups := [] }
    (Or.inr (Or.inl rfl))

/-- C7: the resize mutation is idempotent — on every stored manifest with
the expected `spec.forProvider` nesting, mutating twice with the same
flavor id yields the same document as mutating once. -/
theorem resizeMutate_idem (fields : List (String × Val)) (f : String)
    (h : hasResizeNesting fields = true) :
    resizeMutate (resizeMutate fields f) f = resizeMutate fields f := by
  rcases hs : lookupField fields "spec" with _ | v
  · simp [hasResizeNesting, hs] at h
  · rcases v with s | n | b | xs | specFields
    · simp [hasResizeNesting, hs] at h
    · simp [hasResizeNesting, hs] at h
    · simp [hasResizeNesting, hs] at h
    · simp [hasResizeNesting, hs] at h
    · rcases hf : lookupField specFields "forProvider" with _ | w
      · simp [hasResizeNesting, hs, hf] at h
      · rcases w with s | n | b | xs | fpFields
        · simp [hasResizeNesting, hs, hf] at h
        · simp [hasResizeNesting, hs, hf] at h
        · simp [hasResizeNesting, hs, hf] at h
        · simp [hasResizeNesting, hs, hf] at h
        · simp [resizeMutate, hs, hf, lookupField_setField_self,
            setField_setField_self]

/-- Witness for C7: a well-nested manifest mutated twice with `f2`
equals the once-mutated manifest. -/
theorem resizeMutate_idem_witness :
    resizeMutate (resizeMutate
        [("spec", Val.map [("forProvider", Val.map [("flavorId", Val.str "f1")])])]
        "f2") "f2" =
      resizeMutate
        [("spec", Val.map [("forProvider", Val.map [("flavorId", Val.str "f1")])])]
        "f2" :=
  resizeMutate_idem
    [("spec", Val.map [("forProvider", Val.map [("flavorId", Val.str "f1")])])]
    "f2" rfl

/-- C2 counterexample: on a stored manifest whose `spec` entry is not a
mapping (so the expected nesting is absent), `resizeVM` does not fail
with a malformed-manifest error: it returns 200 success and hands the
unchanged document to the apply step. -/
theorem resize_malformed_counterexample :
    (resizeVM ⟨true, true⟩ "teamA" "vm1" { flavorId := "f2" }
        (StoredManifest.parsed [("spec", Val.str "oops")])).1 =
      HResult.success "Flavor for VM vm1 updated successfully." ∧
    (resizeVM ⟨true, true⟩ "teamA" "vm1" { flavorId := "f2" }
        (StoredManifest.parsed [("spec", Val.str "oops")])).2.2 =
      some [("spec", Val.str "oops")] :=
  ⟨rfl, rfl⟩

/-- C2 amended: when the stored manifest lacks the expected nesting, the
resize handler silently skips the mutation and applies the document
unchanged; the outcome is decided solely by the apply step (200 when it
succeeds, 500 when it fails) and is never a malformed-manifest failure. -/
theorem resize_malformed_silently_skips (env : ApplyEnv)
    (teamName vmName : String) (req : ResizeReq)
    (fields : List (String × Val)) (hf : req.flavorId ≠ "")
    (hn : hasResizeNesting fields = false) :
    (resizeVM env teamName vmName req (StoredManifest.parsed fields)).2.2 =
      some fields ∧
    (resizeVM env teamName vmName req
        (StoredManifest.parsed fields)).1.statusCode =
      (if env.writeOk && env.kubectlOk then 200 else 500) := by
  have hmut := resizeMutate_no_nesting fields req.flavorId hn
  obtain ⟨w, k⟩ := env
  cases w <;> cases k <;>
    simp [resizeVM, hf, hmut, applyYAML, HResult.statusCode]

/-- Witness for amended C2: a manifest with no `spec` entry at all is
applied unchanged with a 200 outcome. -/
theorem resize_malformed_silently_skips_witness :
    (resizeVM ⟨true, true⟩ "teamB" "vm2" { flavorId := "f3" }
        (StoredManifest.parsed [("kind", Val.str "InstanceV2")])).2.2 =
      some [("kind", Val.str "InstanceV2")] ∧
    (resizeVM ⟨true, true⟩ "teamB" "vm2" { flavorId := "f3" }
        (StoredManifest.parsed [("kind", Val.str "InstanceV2")])).1.statusCode =
      (if true && true then 200 else 500) :=
  resize_malformed_silently_skips ⟨true, true⟩ "teamB" "vm2"
    { flavorId := "f3" } [("kind", Val.str "InstanceV2")] (by decide) rfl

/-- C8: `scaleVM` never performs a file operation (it builds, reads and
writes no manifest); an absent `replicas` yields 400 with no command
executed; any present replica count `n` — zero included — is passed to
the external `kubectl scale` command. -/
theorem scale_contract (teamID resourceID : String) (req : ScaleReq)
    (runOk : Bool) :
    (scaleVM teamID resourceID req runOk).2.2 = [] ∧
    (req.replicas = none →
      scaleVM teamID resourceID req runOk =
        (HResult.httpError 400 "Missing replicas in request", [], [])) ∧
    (∀ n : Int, req.replicas = some n →
      (scaleVM teamID resourceID req runOk).2.1 =
        [scaleCmdArgs teamID resourceID n]) := by
  obtain ⟨r⟩ := req
  rcases r with _ | n <;> cases runOk <;> simp [scaleVM]

/-- Witness for C8: zero replicas is accepted and passed to the external
command, while an absent count is rejected with 400. -/
theorem scale_contract_witness :
    (scaleVM "teamA" "vm1" { replicas := some 0 } true).2.1 =
      [scaleCmdArgs "teamA" "vm1" 0] ∧
    scaleVM "teamA" "vm1" { replicas := none } true =
      (HResult.httpError 400 "Missing replicas in request", [], []) :=
  ⟨(scale_contract "teamA" "vm1" { replicas := some 0 } true).2.2 0 rfl,
   (scale_contract "teamA" "vm1" { replicas := none } true).2.1 rfl⟩

/-- C9: for every team-registration, disk-attachment and
block-volume-creation request that passes validation, the last file
operation of the handler is the removal of the transient manifest path it
wrote to, for every apply outcome (success and both failure modes). -/
theorem transient_cleanup (env : ApplyEnv)
    (rName teamName vmName pidSuffix volumeId instanceId bName bDesc : String)
    (bSize : Int) (h1 : rName ≠ "") (h2 : volumeId ≠ "")
    (h3 : instanceId ≠ "") (h4 : bName ≠ "") (h5 : bSize ≠ 0) :
    (registerTeam env { name := rName }).2.2.getLast? =
      some (FileOp.remove (namespacePath rName)) ∧
    (attachDisk env teamName vmName pidSuffix
        { volumeId := volumeId, instanceId := instanceId }).2.2.getLast? =
      some (FileOp.remove
        (tempDir ++ "/" ++ (vmName ++ "-attach-" ++ pidSuffix) ++ ".yaml")) ∧
    (createBlockVolume env teamName
        { name := bName, size := bSize, description := bDesc }).2.2.getLast? =
      some (FileOp.remove (blockVolumePath bName)) := by
  obtain ⟨w, k⟩ := env
  refine ⟨?_, ?_, ?_⟩ <;> cases w <;> cases k <;>
    simp [registerTeam, attachDisk, createBlockVolume, applyYAML,
      h1, h2, h3, h4, h5]

/-- Witness for C9: concrete valid requests under a failing kubectl still
end their traces with the removal of the transient file. -/
theorem transient_cleanup_witness :
    (registerTeam ⟨true, false⟩ { name := "teamA" }).2.2.getLast? =
      some (FileOp.remove (namespacePath "teamA")) ∧
    (attachDisk ⟨true, false⟩ "teamA" "vm1" "0000abcd"
        { volumeId := "vol1", instanceId := "inst1" }).2.2.getLast? =
      some (FileOp.remove
        (tempDir ++ "/" ++ ("vm1" ++ "-attach-" ++ "0000abcd") ++ ".yaml")) ∧
    (createBlockVolume ⟨true, false⟩ "teamA"
        { name := "data1", size := 10, description := "d" }).2.2.getLast? =
      some (FileOp.remove (blockVolumePath "data1")) :=
  transient_cleanup ⟨true, false⟩ "teamA" "teamA" "vm1" "0000abcd" "vol1"
    "inst1" "data1" "d" 10 (by decide) (by decide) (by decide) (by decide)
    (by decide)

/-- C10: a block-volume request with size 0 is rejected with the 400
missing-required-fields error and no command or file operation, whatever
the name and description — zero is indistinguishable from absent there —
while the scale endpoint accepts zero replicas and runs its command. -/
theorem blockVolume_zero_size_rejected (env : ApplyEnv)
    (teamName bName bDesc teamID resourceID : String) (runOk : Bool) :
    createBlockVolume env teamName
        { name := bName, size := 0, description := bDesc } =
      (HResult.httpError 400 "Missing required fields (name or size)", [], []) ∧
    (scaleVM teamID resourceID { replicas := some 0 } runOk).2.1 =
      [scaleCmdArgs teamID resourceID 0] := by
  constructor
  · simp [createBlockVolume]
  · cases runOk <;> simp [scaleVM]

end CrossplaneGo
